import Mathlib

/-!
Verification development for the docling document-conversion HTTP server
(`docling-rag-server.py`).  The server's job-lifecycle core (in-memory
`job_store`, background execution `process_chunking_job`, `delete_job`,
`get_job_status`) is embedded as a small-step machine whose atomic steps are
the individual dictionary writes of the Python source; the chunk-record
assembly shared by `/convert-chunked` and the background engine is embedded
as executable functions over an abstract model of the external chunker's
output.
-/

namespace Docling

/-! ## Path(filename).suffix.lower() and the supported-extension table -/

/-- Index of the last dot in a character list (Python `str.rfind`). -/
def rfindDot (cs : List Char) : Option Nat :=
  (List.range cs.length).foldl
    (fun acc i => if cs.get? i = some '.' then some i else acc) none

/-- Split a character list at a separator character. -/
def splitOnChar (sep : Char) : List Char → List (List Char)
  | [] => [[]]
  | c :: cs =>
      let r := splitOnChar sep cs
      if c = sep then [] :: r
      else (c :: r.headD []) :: r.tail

/-- ASCII lower-casing of one character (as `str.lower()` acts on the ASCII
range relevant to the extension table). -/
def lowerChar (c : Char) : Char :=
  if 65 ≤ c.toNat ∧ c.toNat ≤ 90 then Char.ofNat (c.toNat + 32) else c

def lowerStr (s : String) : String := String.mk (s.data.map lowerChar)

/-- Python `pathlib.Path(p).name`: the final path component. -/
def pathName (p : String) : String :=
  String.mk (((splitOnChar '/' p.data).filter
    (fun s => !s.isEmpty)).getLastD [])

/-- Python `pathlib.Path(p).suffix`: the final extension of the name, including the
dot; empty when the name has no dot strictly inside it. -/
def pathSuffix (p : String) : String :=
  let cs := (pathName p).toList
  match rfindDot cs with
  | some i => if 0 < i && i < cs.length - 1 then String.mk (cs.drop i) else ""
  | none => ""

/-- Python `pathlib.Path(p).stem`: the name without its final extension. -/
def pathStem (p : String) : String :=
  let name := pathName p
  let cs := name.toList
  match rfindDot cs with
  | some i => if 0 < i && i < cs.length - 1 then String.mk (cs.take i) else name
  | none => name

/-- The value `Path(file.filename).suffix.lower()` as computed by every endpoint. -/
def file_extension_of (filename : String) : String :=
  lowerStr (pathSuffix filename)

/-- The `SUPPORTED_EXTENSIONS` dict (extension, description). -/
def SUPPORTED_EXTENSIONS : List (String × String) :=
  [(".pdf", "PDF 문서"), (".docx", "Word 문서"), (".xlsx", "Excel 스프레드시트"),
   (".pptx", "PowerPoint 프레젠테이션"), (".html", "HTML 파일"), (".htm", "HTML 파일"),
   (".md", "Markdown 파일"), (".txt", "텍스트 파일"), (".json", "JSON 파일"),
   (".xml", "XML 파일"), (".csv", "CSV 파일"), (".jpg", "JPEG 이미지"),
   (".jpeg", "JPEG 이미지"), (".png", "PNG 이미지"), (".gif", "GIF 이미지"),
   (".bmp", "BMP 이미지")]

/-- Membership test `file_extension in SUPPORTED_EXTENSIONS`. -/
def isSupported (ext : String) : Bool :=
  (SUPPORTED_EXTENSIONS.map Prod.fst).contains ext

/-- Python `SUPPORTED_EXTENSIONS.get(file_extension, "알 수 없음")`. -/
def fileTypeOf (ext : String) : String :=
  (SUPPORTED_EXTENSIONS.lookup ext).getD ("알 수 없음")

/-- The module constant `MAX_TOKENS = 512`. -/
def MAX_TOKENS : Nat := 512

/-- The module constant `EMBED_MODEL_ID`. -/
def EMBED_MODEL_ID : String :=
  "sentence-transformers/paraphrase-multilingual-MiniLM-L12-v2"

/-! ## Job record, store and the background execution machine

One asynchronous job is modelled.  `job : Option JobRec` is the `job_store`
entry for its id (`none` after `del job_store[job_id]`), `disk` says whether
the job's `temp_dir` still exists on disk, and the two counters record how
many times `shutil.rmtree` actually removed the directory from inside
`process_chunking_job`'s `finally` block resp. from inside `delete_job`.
Each atomic machine step is one Python dictionary write (CPython dict writes
are individually atomic); `result`/`error`/`completed_at`/`failed_at` model
presence of the corresponding keys in the job dict. -/

inductive JobStatus
  | queued
  | processing
  | completed
  | failed
deriving Repr, DecidableEq

/-- Statuses `completed` and `failed` are the terminal statuses. -/
def JobStatus.isTerminal : JobStatus → Bool
  | .completed => true
  | .failed => true
  | _ => false

structure JobRec where
  status : JobStatus
  progress : Nat
  message : String
  result : Bool
  error : Bool
  completed_at : Bool
  failed_at : Bool
deriving Repr, DecidableEq

structure World where
  job : Option JobRec
  disk : Bool
  bg_releases : Nat
  del_releases : Nat
deriving Repr, DecidableEq

/-- Program counter of `process_chunking_job`, one value per store access or
external call (line numbers of the source in the names' order):
`status="processing"` (435), `progress=10` (436), `progress=30` (440),
`message=...` (441), `doc_converter.convert` (442), `progress=40` (447),
`progress=60` (474), `message=...` (475), `active_chunker.chunk` (476),
`progress=80` (480), `message=...` (481), `progress=100` (598),
`status="completed"` (599), `message=...` (600), `result=...` (601),
`completed_at=...` (602); the `except` block (607-610); the `finally` block's
read of `temp_dir` (614) and the guarded `shutil.rmtree` (615-618). -/
inductive BgPc
  | setStatusProcessing
  | setProgress10
  | setProgress30
  | setMsgConvert
  | runConvert
  | setProgress40
  | setProgress60
  | setMsgChunk
  | runChunk
  | setProgress80
  | setMsgMeta
  | setProgress100
  | setStatusCompleted
  | setMsgDone
  | setResult
  | setCompletedAt
  | exceptSetStatusFailed
  | exceptSetProgress0
  | exceptSetError
  | exceptSetFailedAt
  | finallyReadTempDir
  | finallyRemove
  | doneOk
  | doneRaised
deriving Repr, DecidableEq

/-- The background execution finished (normally, or with the `finally`
block's `KeyError` propagating out of the task). -/
def BgPc.isDone : BgPc → Bool
  | .doneOk => true
  | .doneRaised => true
  | _ => false

structure BgCfg where
  pc : BgPc
  w : World
deriving Repr, DecidableEq

/-- A store write `job_store[job_id][k] = v` inside the `try` block: a
missing record raises `KeyError`, which the `except Exception` handler
catches (first handler action is the `status = "failed"` write). -/
def tryWrite (c : BgCfg) (f : JobRec → JobRec) (next : BgPc) : BgCfg :=
  match c.w.job with
  | some r => { pc := next, w := { c.w with job := some (f r) } }
  | none => { c with pc := .exceptSetStatusFailed }

/-- A store write inside the `except` block: a missing record raises
`KeyError` which is not caught again, so control falls through to the
`finally` block. -/
def exceptWrite (c : BgCfg) (f : JobRec → JobRec) (next : BgPc) : BgCfg :=
  match c.w.job with
  | some r => { pc := next, w := { c.w with job := some (f r) } }
  | none => { c with pc := .finallyReadTempDir }

/-- One step of `process_chunking_job`.  `convert_fails` / `chunk_fails` say
whether the external conversion (line 442) resp. chunking (line 476) call
raises. -/
def bgStep (convert_fails chunk_fails : Bool) (c : BgCfg) : BgCfg :=
  match c.pc with
  | .setStatusProcessing =>
      tryWrite c (fun r => { r with status := .processing }) .setProgress10
  | .setProgress10 => tryWrite c (fun r => { r with progress := 10 }) .setProgress30
  | .setProgress30 => tryWrite c (fun r => { r with progress := 30 }) .setMsgConvert
  | .setMsgConvert =>
      tryWrite c (fun r => { r with message := "문서 변환 중..." }) .runConvert
  | .runConvert =>
      if convert_fails then { c with pc := .exceptSetStatusFailed }
      else { c with pc := .setProgress40 }
  | .setProgress40 => tryWrite c (fun r => { r with progress := 40 }) .setProgress60
  | .setProgress60 => tryWrite c (fun r => { r with progress := 60 }) .setMsgChunk
  | .setMsgChunk =>
      tryWrite c (fun r => { r with message := "청킹 중..." }) .runChunk
  | .runChunk =>
      if chunk_fails then { c with pc := .exceptSetStatusFailed }
      else { c with pc := .setProgress80 }
  | .setProgress80 => tryWrite c (fun r => { r with progress := 80 }) .setMsgMeta
  | .setMsgMeta =>
      tryWrite c (fun r => { r with message := "청크 메타데이터 처리 중..." }) .setProgress100
  | .setProgress100 => tryWrite c (fun r => { r with progress := 100 }) .setStatusCompleted
  | .setStatusCompleted =>
      tryWrite c (fun r => { r with status := .completed }) .setMsgDone
  | .setMsgDone => tryWrite c (fun r => { r with message := "처리 완료" }) .setResult
  | .setResult => tryWrite c (fun r => { r with result := true }) .setCompletedAt
  | .setCompletedAt =>
      tryWrite c (fun r => { r with completed_at := true }) .finallyReadTempDir
  | .exceptSetStatusFailed =>
      exceptWrite c (fun r => { r with status := .failed }) .exceptSetProgress0
  | .exceptSetProgress0 => exceptWrite c (fun r => { r with progress := 0 }) .exceptSetError
  | .exceptSetError => exceptWrite c (fun r => { r with error := true }) .exceptSetFailedAt
  | .exceptSetFailedAt =>
      exceptWrite c (fun r => { r with failed_at := true }) .finallyReadTempDir
  | .finallyReadTempDir =>
      match c.w.job with
      | some _ => { c with pc := .finallyRemove }
      | none => { c with pc := .doneRaised }
  | .finallyRemove =>
      if c.w.disk then
        { pc := .doneOk,
          w := { c.w with disk := false, bg_releases := c.w.bg_releases + 1 } }
      else { c with pc := .doneOk }
  | .doneOk => c
  | .doneRaised => c

/-- Endpoint `DELETE /job/{job_id}` (`delete_job`).  Returns the new world and whether
the request succeeded (`false` = 404 not-found).  The `rmtree` is guarded by
`"temp_dir" in job and os.path.exists(job["temp_dir"])`; the record always
carries its `temp_dir` key, so the guard is the on-disk existence check. -/
def delete_job (w : World) : World × Bool :=
  match w.job with
  | none => (w, false)
  | some _ =>
      let w' :=
        if w.disk then
          { w with disk := false, del_releases := w.del_releases + 1 }
        else w
      ({ w' with job := none }, true)

/-- Endpoint `GET /job/{job_id}` response shape (`get_job_status`): the `result`,
`error`, `completed_at`, `failed_at` keys are added only in the matching
status branch, holding `job.get(...)` — `some b` means the response carries
the key and `b` says whether the stored value was actually present. -/
structure PollResp where
  status : JobStatus
  progress : Nat
  message : String
  result : Option Bool
  error : Option Bool
  completed_at : Option Bool
  failed_at : Option Bool
deriving Repr, DecidableEq

def get_job_status (w : World) : Option PollResp :=
  w.job.map (fun r =>
    if r.status = .completed then
      { status := r.status, progress := r.progress, message := r.message,
        result := some r.result, error := none,
        completed_at := some r.completed_at, failed_at := none }
    else if r.status = .failed then
      { status := r.status, progress := r.progress, message := r.message,
        result := none, error := some r.error,
        completed_at := none, failed_at := some r.failed_at }
    else
      { status := r.status, progress := r.progress, message := r.message,
        result := none, error := none, completed_at := none, failed_at := none })

/-- Interleaving: either the background thread takes its next step, or the
client's DELETE handler runs. -/
inductive Move
  | bg
  | del
deriving Repr, DecidableEq

def sysStep (cf ch : Bool) (m : Move) (c : BgCfg) : BgCfg :=
  match m with
  | .bg => bgStep cf ch c
  | .del => { c with w := (delete_job c.w).1 }

def run (cf ch : Bool) (ms : List Move) (c : BgCfg) : BgCfg :=
  ms.foldl (fun c m => sysStep cf ch m c) c

/-- The job record as created by `/convert-chunked-async` (lines 662-671):
status `queued`, progress 0, no result/error/timestamp keys. -/
def initRec : JobRec :=
  { status := .queued, progress := 0, message := "작업 대기 중...",
    result := false, error := false, completed_at := false, failed_at := false }

/-- World right after job creation: record stored, upload persisted to the
freshly created `temp_dir`, background task scheduled at its first store
write. -/
def initCfg : BgCfg :=
  { pc := .setStatusProcessing,
    w := { job := some initRec, disk := true, bg_releases := 0, del_releases := 0 } }

/-! ## Reachability invariant of the job machine -/

/-- No result/error/timestamp key present. -/
def noFlags (r : JobRec) : Prop :=
  r.result = false ∧ r.error = false ∧ r.completed_at = false ∧ r.failed_at = false

/-- The temp directory is removed at most once overall, and a removed store
entry implies `delete_job` already removed the directory. -/
def diskCount (w : World) : Prop :=
  (w.bg_releases + w.del_releases = if w.disk then 0 else 1) ∧
  (w.job = none → w.disk = false)

/-- Record shape on the straight-line `try` path. -/
def tryInv (w : World) (stat : JobStatus) (prog : Nat) : Prop :=
  ∀ r, w.job = some r → r.status = stat ∧ r.progress = prog ∧ noFlags r

/-- Record shape once the terminal write sequence concluded (entry to the
`finally` block). -/
def finInv (w : World) : Prop :=
  ∀ r, w.job = some r →
    (r.status = .completed ∧ r.progress = 100 ∧ r.result = true ∧
      r.error = false ∧ r.completed_at = true ∧ r.failed_at = false) ∨
    (r.status = .failed ∧ r.progress = 0 ∧ r.result = false ∧
      r.error = true ∧ r.completed_at = false ∧ r.failed_at = true)

/-- Inductive invariant of the interleaved system. -/
def Inv (c : BgCfg) : Prop :=
  diskCount c.w ∧
  match c.pc with
  | .setStatusProcessing => tryInv c.w .queued 0
  | .setProgress10 => tryInv c.w .processing 0
  | .setProgress30 => tryInv c.w .processing 10
  | .setMsgConvert => tryInv c.w .processing 30
  | .runConvert => tryInv c.w .processing 30
  | .setProgress40 => tryInv c.w .processing 30
  | .setProgress60 => tryInv c.w .processing 40
  | .setMsgChunk => tryInv c.w .processing 60
  | .runChunk => tryInv c.w .processing 60
  | .setProgress80 => tryInv c.w .processing 60
  | .setMsgMeta => tryInv c.w .processing 80
  | .setProgress100 => tryInv c.w .processing 80
  | .setStatusCompleted => tryInv c.w .processing 100
  | .setMsgDone => tryInv c.w .completed 100
  | .setResult => tryInv c.w .completed 100
  | .setCompletedAt =>
      ∀ r, c.w.job = some r →
        r.status = .completed ∧ r.progress = 100 ∧ r.result = true ∧
        r.error = false ∧ r.completed_at = false ∧ r.failed_at = false
  | .exceptSetStatusFailed =>
      ∀ r, c.w.job = some r →
        r.status = .processing ∧ (r.progress = 30 ∨ r.progress = 60) ∧ noFlags r
  | .exceptSetProgress0 =>
      ∀ r, c.w.job = some r →
        r.status = .failed ∧ (r.progress = 30 ∨ r.progress = 60) ∧ noFlags r
  | .exceptSetError =>
      ∀ r, c.w.job = some r → r.status = .failed ∧ r.progress = 0 ∧ noFlags r
  | .exceptSetFailedAt =>
      ∀ r, c.w.job = some r →
        r.status = .failed ∧ r.progress = 0 ∧ r.result = false ∧
        r.error = true ∧ r.completed_at = false ∧ r.failed_at = false
  | .finallyReadTempDir => finInv c.w
  | .finallyRemove => finInv c.w
  | .doneOk => finInv c.w ∧ c.w.disk = false
  | .doneRaised => c.w.job = none

/-- Number of record fields on which two job records differ. -/
def fieldDiffCount (r r' : JobRec) : Nat :=
  (if r.status = r'.status then 0 else 1) +
  (if r.progress = r'.progress then 0 else 1) +
  (if r.message = r'.message then 0 else 1) +
  (if r.result = r'.result then 0 else 1) +
  (if r.error = r'.error then 0 else 1) +
  (if r.completed_at = r'.completed_at then 0 else 1) +
  (if r.failed_at = r'.failed_at then 0 else 1)

/-! ## Chunk-record assembly

Abstract model of the external chunker's output objects: only attribute
presence (`hasattr`) and the attribute values matter to the assembly code.
`dir_attrs` models `[attr for attr in dir(x) if not attr.startswith("_")]`. -/

structure BBoxAttr where
  l : Option Int
  t : Option Int
  r : Option Int
  b : Option Int
  coord_origin : Option String
deriving Repr, DecidableEq

structure Prov where
  page_no : Option Int
  bbox : Option BBoxAttr
  charspan : Option (Int × Int)
  sheet_name : Option String
  page_name : Option String
deriving Repr, DecidableEq

structure DocItem where
  label : Option String
  prov : Option (List Prov)
deriving Repr, DecidableEq

structure ChunkMeta where
  doc_items : Option (List DocItem)
  export_val : String
  meta_dir_attrs : List String
deriving Repr, DecidableEq

structure Chunk where
  text : String
  meta : Option ChunkMeta
  dir_attrs : List String
deriving Repr, DecidableEq

/-- External tokenizer object; `count_tokens` is present iff
`hasattr(tokenizer, "count_tokens")` holds. -/
structure TokObj where
  count_tokens : Option (String → Nat)

/-- External chunker built from a tokenizer and applied to the converted
document of the current upload: its chunk list and its `contextualize`. -/
structure ChunkerObj where
  chunks : List Chunk
  ctx : Chunk → String

structure BBoxOut where
  l : Int
  t : Int
  r : Int
  b : Int
  coord_origin : String
deriving Repr, DecidableEq

structure BBoxInfo where
  page : Int
  label : String
  bbox : Option BBoxOut
  charspan : Option (Int × Int)
deriving Repr, DecidableEq

/-- The `sheet` field holds either a single sheet-name string or a list. -/
inductive SheetVal
  | one : String → SheetVal
  | many : List String → SheetVal
deriving Repr, DecidableEq

/-- One entry of the `chunks` array; `Option` fields model presence of the
corresponding dict key. -/
structure ChunkInfo where
  chunk_id : Nat
  text : String
  text_length : Nat
  token_count : Option Nat
  contextualized_text : Option String
  contextualized_length : Option Nat
  metadata : Option String
  debug_chunk_attrs : Option (List String)
  debug_meta_attrs : Option (List String)
  page_info : List Int
  pages : List Int
  sheet_names : Option (List String)
  sheet : Option SheetVal
  sheet_index : Option (List Int)
  section_index : Option Nat
  bbox_info : List BBoxInfo
deriving Repr, DecidableEq, Inhabited

/-- Python `sorted(list(s))` for a set of ints collected in order. -/
def sortedIntSet (l : List Int) : List Int :=
  List.insertionSort (· ≤ ·) l.dedup

/-- Code-point lexicographic `<` on strings (Python string comparison). -/
def strListLt : List Char → List Char → Bool
  | [], [] => false
  | [], _ :: _ => true
  | _ :: _, [] => false
  | a :: as, b :: bs =>
      if a < b then true else if b < a then false else strListLt as bs

def strLtB (a b : String) : Bool := strListLt a.data b.data

def insertLeB (le : String → String → Bool) (a : String) :
    List String → List String
  | [] => [a]
  | b :: bs => if le a b then a :: b :: bs else b :: insertLeB le a bs

def sortLeB (le : String → String → Bool) : List String → List String
  | [] => []
  | a :: as => insertLeB le a (sortLeB le as)

/-- Python `sorted(list(sheet_names))`. -/
def sortedStrSet (l : List String) : List String :=
  sortLeB (fun a b => !(strLtB b a)) l.dedup

/-- The provenance scan shared verbatim by `convert_file_chunked`
(lines 299-338) and `process_chunking_job` (lines 501-539): page numbers
with `page_no > 0`, per-provenance bbox entries, and sheet names
(`prov.sheet_name`, else `prov.page_name`). -/
def collect_prov_data (items : List DocItem) :
    List Int × List BBoxInfo × List String :=
  items.foldl
    (fun acc item =>
      match item.prov with
      | none => acc
      | some provs =>
          provs.foldl
            (fun acc prov =>
              let pns := acc.1
              let bbs := acc.2.1
              let shs := acc.2.2
              let pns2 :=
                match prov.page_no with
                | some n => if 0 < n then pns ++ [n] else pns
                | none => pns
              let bbs2 :=
                match prov.page_no with
                | some n =>
                    if 0 < n then
                      let bi : BBoxInfo :=
                        { page := n,
                          label := item.label.getD ("unknown"),
                          bbox := prov.bbox.map (fun bx =>
                            { l := bx.l.getD 0, t := bx.t.getD 0,
                              r := bx.r.getD 0, b := bx.b.getD 0,
                              coord_origin := bx.coord_origin.getD ("BOTTOMLEFT") }),
                          charspan := prov.charspan }
                      bbs ++ [bi]
                    else bbs
                | none => bbs
              let shs2 :=
                match prov.sheet_name with
                | some s => shs ++ [s]
                | none =>
                    match prov.page_name with
                    | some s => shs ++ [s]
                    | none => shs
              (pns2, bbs2, shs2))
            acc)
    ([], [], [])

/-- The per-chunk page/sheet classification shared verbatim by
`convert_file_chunked` (lines 299-372) and `process_chunking_job`
(lines 501-573), applied to the partially built chunk record. -/
def chunk_page_fields (file_extension : String) (excel_sheets : List String)
    (i : Nat) (chunk : Chunk) (r : ChunkInfo) : ChunkInfo :=
  let data := collect_prov_data ((chunk.meta.bind ChunkMeta.doc_items).getD [])
  let page_numbers := data.1
  let bbox_data := data.2.1
  let sheet_list := data.2.2
  let r2 :=
    if file_extension == ".xlsx" then
      let rx := { r with page_info := ([] : List Int), pages := ([] : List Int) }
      if !sheet_list.isEmpty then
        { rx with sheet_names := some (sortedStrSet sheet_list),
                  sheet := some (if sheet_list.dedup.length == 1 then
                      SheetVal.one (sheet_list.dedup.headD (""))
                    else SheetVal.many (sortedStrSet sheet_list)) }
      else if !excel_sheets.isEmpty && !page_numbers.isEmpty then
        let matched := (sortedIntSet page_numbers).foldl
          (fun ms n =>
            if n ≤ (excel_sheets.length : Int) then
              ms ++ [(excel_sheets.get? (n - 1).toNat).getD ("")]
            else ms) []
        if !matched.isEmpty then
          { rx with sheet_names := some matched,
                    sheet := some (if matched.length == 1 then
                        SheetVal.one (matched.headD (""))
                      else SheetVal.many matched),
                    sheet_index := some (sortedIntSet page_numbers) }
        else rx
      else rx
    else if !page_numbers.isEmpty then
      { r with page_info := sortedIntSet page_numbers,
               pages := sortedIntSet page_numbers }
    else
      { r with page_info := ([] : List Int), pages := ([] : List Int),
               section_index := some (i + 1) }
  { r2 with bbox_info := bbox_data }

/-- The base chunk dict of `convert_file_chunked` (lines 276-297): core
fields, optional contextualization, metadata passthrough, and the two
sync-only debug attribute lists.  `tokenizer` is the module-global
tokenizer (line 280 reads the global, not the custom one). -/
def convert_file_chunked_base (tokenizer : TokObj) (active_ctx : Chunk → String)
    (contextualize : Bool) (i : Nat) (chunk : Chunk) : ChunkInfo :=
  let r : ChunkInfo :=
    { chunk_id := i + 1, text := chunk.text, text_length := chunk.text.length,
      token_count := tokenizer.count_tokens.map (fun f => f chunk.text),
      contextualized_text := none, contextualized_length := none,
      metadata := none, debug_chunk_attrs := none, debug_meta_attrs := none,
      page_info := [], pages := [], sheet_names := none, sheet := none,
      sheet_index := none, section_index := none, bbox_info := [] }
  let r :=
    if contextualize then
      { r with contextualized_text := some (active_ctx chunk),
               contextualized_length := some (active_ctx chunk).length }
    else r
  let r :=
    match chunk.meta with
    | some m => { r with metadata := some m.export_val }
    | none => r
  let r := { r with debug_chunk_attrs := some chunk.dir_attrs }
  match chunk.meta with
  | some m => { r with debug_meta_attrs := some m.meta_dir_attrs }
  | none => r

/-- The base chunk dict of `process_chunking_job` (lines 484-499): same as
the synchronous one but without the debug attribute lists. -/
def process_chunking_job_base (tokenizer : TokObj) (active_ctx : Chunk → String)
    (contextualize : Bool) (i : Nat) (chunk : Chunk) : ChunkInfo :=
  let r : ChunkInfo :=
    { chunk_id := i + 1, text := chunk.text, text_length := chunk.text.length,
      token_count := tokenizer.count_tokens.map (fun f => f chunk.text),
      contextualized_text := none, contextualized_length := none,
      metadata := none, debug_chunk_attrs := none, debug_meta_attrs := none,
      page_info := [], pages := [], sheet_names := none, sheet := none,
      sheet_index := none, section_index := none, bbox_info := [] }
  let r :=
    if contextualize then
      { r with contextualized_text := some (active_ctx chunk),
               contextualized_length := some (active_ctx chunk).length }
    else r
  match chunk.meta with
  | some m => { r with metadata := some m.export_val }
  | none => r

/-- One chunk record of `/convert-chunked` (lines 275-374). -/
def convert_file_chunked_record (tokenizer : TokObj) (active_ctx : Chunk → String)
    (contextualize : Bool) (file_extension : String) (excel_sheets : List String)
    (i : Nat) (chunk : Chunk) : ChunkInfo :=
  chunk_page_fields file_extension excel_sheets i chunk
    (convert_file_chunked_base tokenizer active_ctx contextualize i chunk)

/-- One chunk record of the background engine (lines 483-575). -/
def process_chunking_job_record (tokenizer : TokObj) (active_ctx : Chunk → String)
    (contextualize : Bool) (file_extension : String) (excel_sheets : List String)
    (i : Nat) (chunk : Chunk) : ChunkInfo :=
  chunk_page_fields file_extension excel_sheets i chunk
    (process_chunking_job_base tokenizer active_ctx contextualize i chunk)

/-- Drop the two sync-only debug fields of a chunk record. -/
def eraseDebug (r : ChunkInfo) : ChunkInfo :=
  { r with debug_chunk_attrs := none, debug_meta_attrs := none }

/-- Loop `for i, chunk in enumerate(chunks)` record accumulation. -/
def chunkRecords (build : Nat → Chunk → ChunkInfo) :
    Nat → List Chunk → List ChunkInfo
  | _, [] => []
  | i, c :: cs => build i c :: chunkRecords build (i + 1) cs

structure FileMeta where
  original_file_size : Nat
  mime_type : Option String
  extension : String
  total_pages : Option Nat
deriving Repr, DecidableEq

/-- The JSON payload of `/convert-chunked` (lines 377-409) resp. the
`result` payload of `process_chunking_job` (lines 578-595); `Option` fields
model presence of the corresponding key (`file_metadata` is sync-only,
`excel_sheets`/`total_sheets` are async-only). -/
structure ChunkedPayload where
  success : Bool
  filename : String
  file_type : String
  total_chunks : Nat
  config_tokenizer : String
  config_max_tokens : Nat
  config_merge_peers : Bool
  config_contextualize : Bool
  chunks : List ChunkInfo
  file_metadata : Option FileMeta
  excel_sheets : Option (List String)
  total_sheets : Option Nat
deriving Repr, DecidableEq

/-- Python `max_tokens or MAX_TOKENS` (`None` and `0` are falsy). -/
def max_tokens_or_default : Option Nat → Nat
  | some n => if n == 0 then MAX_TOKENS else n
  | none => MAX_TOKENS

/-- Endpoint `/convert-chunked` (lines 212-411) on one upload, abstracting the
external capabilities: `mkTok m` is `HuggingFaceTokenizer(..., max_tokens=m)`
and `mkChunker t` is `HybridChunker(tokenizer=t, merge_peers=True)` applied
to the converted document; the module globals `tokenizer` / `chunker`
(lines 49-58) are `mkTok MAX_TOKENS` / `mkChunker (mkTok MAX_TOKENS)`.
`excel_sheets_raw` is what `openpyxl` reports for the upload. -/
def convert_file_chunked_run (mkTok : Nat → TokObj)
    (mkChunker : TokObj → ChunkerObj) (filename : String)
    (excel_sheets_raw : List String) (content_len : Nat) (mime : Option String)
    (total_pages_raw : Nat) (include_metadata contextualize : Bool)
    (max_tokens : Option Nat) : ChunkedPayload :=
  let file_extension := file_extension_of filename
  let tokenizer := mkTok MAX_TOKENS
  let chunker := mkChunker (mkTok MAX_TOKENS)
  let active_chunker :=
    match max_tokens with
    | some n => if n != 0 && n != MAX_TOKENS then mkChunker (mkTok n) else chunker
    | none => chunker
  let excel_sheets := if file_extension == ".xlsx" then excel_sheets_raw else []
  let chunks := active_chunker.chunks
  { success := true, filename := filename,
    file_type := fileTypeOf file_extension,
    total_chunks := chunks.length, config_tokenizer := EMBED_MODEL_ID,
    config_max_tokens := max_tokens_or_default max_tokens,
    config_merge_peers := true, config_contextualize := contextualize,
    chunks := chunkRecords
      (fun i c => convert_file_chunked_record tokenizer active_chunker.ctx
        contextualize file_extension excel_sheets i c) 0 chunks,
    file_metadata :=
      if include_metadata then
        some { original_file_size := content_len, mime_type := mime,
               extension := file_extension,
               total_pages :=
                 if 0 < total_pages_raw then some total_pages_raw else none }
      else none,
    excel_sheets := none, total_sheets := none }

/-- The successful-path `result` payload assembled by `process_chunking_job`
(lines 446-595); `include_metadata` is accepted but never used by the
function.  `file_extension` is passed in by the async endpoint as
`Path(file.filename).suffix.lower()`. -/
def process_chunking_job_run (mkTok : Nat → TokObj)
    (mkChunker : TokObj → ChunkerObj) (filename : String)
    (file_extension : String) (excel_sheets_raw : List String)
    (include_metadata contextualize : Bool) (max_tokens : Option Nat) :
    ChunkedPayload :=
  let tokenizer := mkTok MAX_TOKENS
  let chunker := mkChunker (mkTok MAX_TOKENS)
  let active_chunker :=
    match max_tokens with
    | some n => if n != 0 && n != MAX_TOKENS then mkChunker (mkTok n) else chunker
    | none => chunker
  let excel_sheets := if file_extension == ".xlsx" then excel_sheets_raw else []
  let chunks := active_chunker.chunks
  { success := true, filename := filename,
    file_type := fileTypeOf file_extension,
    total_chunks := chunks.length, config_tokenizer := EMBED_MODEL_ID,
    config_max_tokens := max_tokens_or_default max_tokens,
    config_merge_peers := true, config_contextualize := contextualize,
    chunks := chunkRecords
      (fun i c => process_chunking_job_record tokenizer active_chunker.ctx
        contextualize file_extension excel_sheets i c) 0 chunks,
    file_metadata := none,
    excel_sheets :=
      if file_extension == ".xlsx" && !excel_sheets.isEmpty then
        some excel_sheets
      else none,
    total_sheets :=
      if file_extension == ".xlsx" && !excel_sheets.isEmpty then
        some excel_sheets.length
      else none }

/-! ## Endpoint admission model

Ordered observable actions of each endpoint up to and including the
response: workspace allocation (`TemporaryDirectory` / `mkdtemp`), job
record creation, background scheduling, external conversion calls, and the
HTTP outcome. -/

inductive Ev
  | http400
  | http500
  | allocWorkspace
  | createJobRecord
  | scheduleTask
  | adapterConvert (filename : String)
  | respondOk
deriving Repr, DecidableEq

/-- Endpoint `/convert` (lines 126-210): extension check (148-154) before the
`TemporaryDirectory` (line 157); a conversion failure raises a 500. -/
def convert_file_events (filename : String) (conv_ok : Bool) : List Ev :=
  if isSupported (file_extension_of filename) then
    [Ev.allocWorkspace, Ev.adapterConvert filename] ++
      (if conv_ok then [Ev.respondOk] else [Ev.http500])
  else [Ev.http400]

/-- Endpoint `/convert-chunked` (lines 212-419): extension check (224-230) before the
`TemporaryDirectory` (line 232); failures are reported in a 200 body. -/
def convert_file_chunked_events (filename : String) : List Ev :=
  if isSupported (file_extension_of filename) then
    [Ev.allocWorkspace, Ev.adapterConvert filename, Ev.respondOk]
  else [Ev.http400]

/-- Endpoint `/convert-chunked-async` (lines 623-702): extension check (639-646)
before `mkdtemp` (653), record creation (662) and scheduling (674);
a storage failure cleans up and raises a 500. -/
def convert_file_chunked_async_events (filename : String) (store_ok : Bool) :
    List Ev :=
  if isSupported (file_extension_of filename) then
    if store_ok then
      [Ev.allocWorkspace, Ev.createJobRecord, Ev.scheduleTask, Ev.respondOk]
    else [Ev.allocWorkspace, Ev.http500]
  else [Ev.http400]

structure FileResult where
  filename : String
  success : Bool
  error : Option String
  output_filename : Option String
  content_length : Option Nat
  chunks_count : Option Nat
deriving Repr, DecidableEq

inductive OutFmt
  | zip
  | json
deriving Repr, DecidableEq

inductive MultiResp
  | httpError (code : Nat) (detail : String)
  | jsonResp (total_files successful : Nat) (results : List FileResult)
  | zipResp (names : List String)
deriving Repr, DecidableEq

def isHttpError : MultiResp → Bool
  | .httpError _ _ => true
  | _ => false

structure MultiRun where
  events : List Ev
  results : List FileResult
  resp : MultiResp
deriving Repr, DecidableEq

/-- Python dict assignment `converted_files[k] = v` on an insertion-ordered
dict. -/
def dictInsert (k v : String) (d : List (String × String)) :
    List (String × String) :=
  if (d.lookup k).isSome then
    d.map (fun p => if p.1 == k then (k, v) else p)
  else d ++ [(k, v)]

/-- One iteration of the per-file loop of `convert_multiple_files`
(lines 813-870): unsupported files are skipped with a per-file failure
entry; supported files go to the adapter and succeed or fail per
`conv_ok`.  The accumulator is (events, results, converted_files). -/
def convert_multiple_step (use_chunking : Bool) (conv_ok : String → Bool)
    (conv_content : String → String) (chunks_count : String → Nat)
    (conv_err : String → String)
    (acc : List Ev × List FileResult × List (String × String)) (f : String) :
    List Ev × List FileResult × List (String × String) :=
  let evs := acc.1
  let results := acc.2.1
  let conv := acc.2.2
  let fe := file_extension_of f
  if !(isSupported fe) then
    let entry : FileResult :=
      { filename := f, success := false,
        error := some ("지원되지 않는 파일 형식"), output_filename := none,
        content_length := none, chunks_count := none }
    (evs, results ++ [entry], conv)
  else if conv_ok f then
    let content := conv_content f
    let out := pathStem f ++ ".md"
    let entry : FileResult :=
      { filename := f, success := true, error := none,
        output_filename := some out, content_length := some content.length,
        chunks_count := some (if use_chunking then chunks_count f else 1) }
    (evs ++ [Ev.adapterConvert f], results ++ [entry],
     dictInsert out content conv)
  else
    let entry : FileResult :=
      { filename := f, success := false,
        error := some (conv_err f), output_filename := none,
        content_length := none, chunks_count := none }
    (evs ++ [Ev.adapterConvert f], results ++ [entry], conv)

/-- Endpoint `/convert-multiple` (lines 792-901): the >10 check (806) precedes
everything; otherwise one shared `TemporaryDirectory` (line 812) is
allocated before any per-file extension check, then the per-file loop runs,
and the response is JSON (line 873), a ZIP (line 887), or a 400 when the
format is zip and nothing was converted (line 901). -/
def convert_multiple_files_run (files : List String) (output_format : OutFmt)
    (use_chunking : Bool) (conv_ok : String → Bool)
    (conv_content : String → String) (chunks_count : String → Nat)
    (conv_err : String → String) : MultiRun :=
  if 10 < files.length then
    { events := [Ev.http400], results := [],
      resp := MultiResp.httpError 400 ("한 번에 최대 10개 파일까지 처리 가능합니다.") }
  else
    let acc := files.foldl
      (convert_multiple_step use_chunking conv_ok conv_content chunks_count conv_err)
      ([Ev.allocWorkspace], [], [])
    match output_format with
    | OutFmt.json =>
        { events := acc.1 ++ [Ev.respondOk], results := acc.2.1,
          resp := MultiResp.jsonResp files.length acc.2.2.length acc.2.1 }
    | OutFmt.zip =>
        if !acc.2.2.isEmpty then
          { events := acc.1 ++ [Ev.respondOk], results := acc.2.1,
            resp := MultiResp.zipResp (acc.2.2.map Prod.fst) }
        else
          { events := acc.1 ++ [Ev.http400], results := acc.2.1,
            resp := MultiResp.httpError 400 ("변환 가능한 파일이 없습니다.") }

theorem Inv_init : Inv initCfg := by
  constructor
  · exact ⟨rfl, by intro h; simp [initCfg] at h⟩
  · intro r hr
    simp only [initCfg] at hr
    cases hr
    exact ⟨rfl, rfl, rfl, rfl, rfl, rfl⟩

/-- Any world whose store entry is already gone satisfies every per-pc part
of the invariant. -/
theorem Inv_of_none (pc : BgPc) (w : World) (hd : diskCount w)
    (hj : w.job = none) : Inv ⟨pc, w⟩ := by
  refine ⟨hd, ?_⟩
  have hdisk : w.disk = false := hd.2 hj
  cases pc <;> simp_all [Inv, tryInv, finInv, noFlags]

set_option maxHeartbeats 1000000 in
theorem Inv_step (cf ch : Bool) (m : Move) (c : BgCfg) (h : Inv c) :
    Inv (sysStep cf ch m c) := by
  obtain ⟨pc, w⟩ := c
  obtain ⟨hd, hpc⟩ := h
  cases m with
  | del =>
      cases hj : w.job with
      | none =>
          have : (delete_job w).1 = w := by simp [delete_job, hj]
          show Inv ⟨pc, (delete_job w).1⟩
          rw [this]
          exact ⟨hd, hpc⟩
      | some r =>
          show Inv ⟨pc, (delete_job w).1⟩
          refine Inv_of_none pc _ ?_ ?_
          · obtain ⟨h1, _⟩ := hd
            by_cases hw : w.disk <;>
              simp_all [delete_job, diskCount]
          · by_cases hw : w.disk <;> simp [delete_job, hj, hw]
  | bg =>
      cases pc <;>
        cases hj : w.job <;>
          first
            | (simp_all [sysStep, bgStep, tryWrite, exceptWrite, Inv,
                diskCount, tryInv, finInv, noFlags]; done)
            | (simp_all [sysStep, bgStep, tryWrite, exceptWrite, Inv,
                diskCount, tryInv, finInv, noFlags] <;> omega)
            | (cases cf <;>
                simp_all [sysStep, bgStep, tryWrite, exceptWrite, Inv,
                  diskCount, tryInv, finInv, noFlags] <;>
                try omega
               done)
            | (cases ch <;>
                simp_all [sysStep, bgStep, tryWrite, exceptWrite, Inv,
                  diskCount, tryInv, finInv, noFlags] <;>
                try omega
               done)
            | (by_cases hw : w.disk <;>
                simp_all [sysStep, bgStep, tryWrite, exceptWrite, Inv,
                  diskCount, tryInv, finInv, noFlags] <;>
                try omega
               done)

/-- Every configuration reached from `initCfg` satisfies the invariant. -/
theorem Inv_run (cf ch : Bool) (ms : List Move) : Inv (run cf ch ms initCfg) := by
  have H : ∀ (ms : List Move) (c : BgCfg), Inv c → Inv (run cf ch ms c) := by
    intro ms
    induction ms with
    | nil => intro c hc; exact hc
    | cons m ms ih =>
        intro c hc
        exact ih _ (Inv_step cf ch m c hc)
  exact H ms initCfg Inv_init

/-! ## Lifecycle claims -/

/-- C1 (counterexample): the workspace is NOT released as the final step of
the background execution when `DELETE /job/{id}` removed the job record while
the execution was in flight: the `finally` block's `job_store[job_id]` lookup
raises `KeyError` (`doneRaised`) and the background performs zero removals —
the one removal was performed by `delete_job`. -/
theorem c1_counterexample :
    (run false false (Move.bg :: Move.del :: List.replicate 30 Move.bg) initCfg).pc
        = BgPc.doneRaised ∧
    (run false false (Move.bg :: Move.del :: List.replicate 30 Move.bg) initCfg).w.bg_releases
        = 0 ∧
    (run false false (Move.bg :: Move.del :: List.replicate 30 Move.bg) initCfg).w.del_releases
        = 1 := by
  decide

/-- C1 (amended): in every interleaving of the background execution with
client deletes, once the background execution has finished the workspace has
been removed from disk exactly once overall — by the background's `finally`
block when the record still existed, and otherwise by `delete_job`, the
background's cleanup then dying on `KeyError` without releasing anything. -/
theorem c1_workspace_released_exactly_once (cf ch : Bool) (ms : List Move)
    (hdone : (run cf ch ms initCfg).pc.isDone = true) :
    (run cf ch ms initCfg).w.bg_releases + (run cf ch ms initCfg).w.del_releases
      = 1 := by
  obtain ⟨⟨h1, h2⟩, hpc⟩ := Inv_run cf ch ms
  cases hp : (run cf ch ms initCfg).pc <;>
    rw [hp] at hpc <;>
    simp_all [BgPc.isDone]

theorem c1_witness :
    (run false false (List.replicate 25 Move.bg) initCfg).w.bg_releases +
      (run false false (List.replicate 25 Move.bg) initCfg).w.del_releases = 1 :=
  c1_workspace_released_exactly_once false false (List.replicate 25 Move.bg)
    (by decide)

/-- C4 (counterexample): after the `status = "completed"` write (line 599)
but before the `result` write (line 601), the store holds — and
`get_job_status` serves — a record whose status is terminal while neither
`result` nor `error` is set. -/
theorem c4_counterexample :
    ((run false false (List.replicate 13 Move.bg) initCfg).w.job.map
        (fun r => (r.status, r.result, r.error))
      = some (JobStatus.completed, false, false)) ∧
    ((get_job_status (run false false (List.replicate 13 Move.bg) initCfg).w).map
        (fun p => (p.status, p.result, p.error))
      = some (JobStatus.completed, some false, none)) := by
  decide

/-- C4 (amended): in every reachable store state, `result` is only ever set
with status `completed`, `error` only with status `failed`, never both, and
neither is set while the status is non-terminal; once the background's
terminal write sequence has finished (control in the `finally` block or
beyond) exactly one of the two is set — but transiently, between the status
write and the result/error write, a terminal status with neither key is
observable. -/
theorem c4_result_error_invariant (cf ch : Bool) (ms : List Move) (r : JobRec)
    (hj : (run cf ch ms initCfg).w.job = some r) :
    (r.status.isTerminal = false → r.result = false ∧ r.error = false) ∧
    (r.result = true → r.status = JobStatus.completed) ∧
    (r.error = true → r.status = JobStatus.failed) ∧
    ¬(r.result = true ∧ r.error = true) ∧
    ((run cf ch ms initCfg).pc.isDone = true ∨
        (run cf ch ms initCfg).pc = BgPc.finallyReadTempDir ∨
        (run cf ch ms initCfg).pc = BgPc.finallyRemove →
      (r.result = true ∧ r.error = false) ∨
      (r.result = false ∧ r.error = true)) := by
  obtain ⟨-, hpc⟩ := Inv_run cf ch ms
  cases hp : (run cf ch ms initCfg).pc <;>
    rw [hp] at hpc <;>
    first
      | (simp_all [tryInv, finInv, noFlags, JobStatus.isTerminal, BgPc.isDone]
         done)
      | ((rcases hpc r hj with h | h) <;>
          simp_all [JobStatus.isTerminal, BgPc.isDone]
         done)
      | ((rcases hpc.1 r hj with h | h) <;>
          simp_all [JobStatus.isTerminal, BgPc.isDone]
         done)

theorem c4_witness :
    ({ status := JobStatus.completed, progress := 100, message := "처리 완료",
       result := true, error := false, completed_at := true,
       failed_at := false } : JobRec).result = true ∧
    ({ status := JobStatus.completed, progress := 100, message := "처리 완료",
       result := true, error := false, completed_at := true,
       failed_at := false } : JobRec).error = false := by
  have h := (c4_result_error_invariant false false (List.replicate 18 Move.bg)
      { status := JobStatus.completed, progress := 100, message := "처리 완료",
        result := true, error := false, completed_at := true, failed_at := false }
      (by decide)).2.2.2.2 (Or.inl (by decide))
  rcases h with h | h
  · exact h
  · exact absurd h.1 (by decide)

/-- C5: in every reachable state the stored `progress` never exceeds 100,
and no single system step ever lowers the progress of a record whose status
is still non-terminal — so any sequence of polls taken before the job first
turns terminal observes non-decreasing progress values.  (The reset
`progress = 0` of the failure handler happens strictly after the
`status = "failed"` write, hence only on records already terminal.) -/
theorem c5_progress_monotone_bounded (cf ch : Bool) (ms : List Move) :
    (∀ r, (run cf ch ms initCfg).w.job = some r → r.progress ≤ 100) ∧
    (∀ (m : Move) (r r' : JobRec),
      (run cf ch ms initCfg).w.job = some r →
      (sysStep cf ch m (run cf ch ms initCfg)).w.job = some r' →
      r'.status.isTerminal = false →
      r.progress ≤ r'.progress) := by
  obtain ⟨-, hpc⟩ := Inv_run cf ch ms
  constructor
  · intro r hj
    cases hp : (run cf ch ms initCfg).pc <;>
      rw [hp] at hpc <;>
      simp_all [tryInv, finInv, noFlags] <;>
      omega
  · intro m r r' hj hj' hterm
    cases m with
    | del => simp [sysStep, delete_job, hj] at hj'
    | bg =>
        cases hp : (run cf ch ms initCfg).pc <;>
          rw [hp] at hpc <;>
          first
            | (simp only [sysStep, hp, bgStep, tryWrite, exceptWrite, hj,
                 Option.some.injEq] at hj'
               subst hj'
               have h := hpc r hj
               simp_all [tryInv, finInv, noFlags, JobStatus.isTerminal]
               try omega
               done)
            | (simp_all [sysStep, bgStep, tryWrite, exceptWrite, tryInv,
                finInv, noFlags, JobStatus.isTerminal]
               done)
            | (cases cf <;>
                simp_all [sysStep, bgStep, tryWrite, exceptWrite, tryInv,
                  finInv, noFlags, JobStatus.isTerminal]
               done)
            | (cases ch <;>
                simp_all [sysStep, bgStep, tryWrite, exceptWrite, tryInv,
                  finInv, noFlags, JobStatus.isTerminal]
               done)
            | (by_cases hw : (run cf ch ms initCfg).w.disk <;>
                simp_all [sysStep, bgStep, tryWrite, exceptWrite, tryInv,
                  finInv, noFlags, JobStatus.isTerminal]
               done)

theorem c5_witness : initRec.progress ≤ 100 :=
  (c5_progress_monotone_bounded false false []).1 initRec rfl

/-- C7: after the background execution has run to completion on its own (any
success/failure combination of the external calls) the record is still in the
store and the workspace is already gone from disk; `delete_job` on that state
still succeeds — the `os.path.exists` guard skips the `rmtree`, so nothing is
raised and no second removal happens — and removes the record. -/
theorem c7_delete_tolerates_released_workspace (cf ch : Bool) :
    ((run cf ch (List.replicate 25 Move.bg) initCfg).w.disk = false) ∧
    ((run cf ch (List.replicate 25 Move.bg) initCfg).w.job.isSome = true) ∧
    ((delete_job (run cf ch (List.replicate 25 Move.bg) initCfg).w).2 = true) ∧
    ((delete_job (run cf ch (List.replicate 25 Move.bg) initCfg).w).1.job = none) ∧
    ((delete_job (run cf ch (List.replicate 25 Move.bg) initCfg).w).1.del_releases
      = (run cf ch (List.replicate 25 Move.bg) initCfg).w.del_releases) := by
  cases cf <;> cases ch <;> decide

/-- C8 (counterexample): a poll between the failure handler's
`status = "failed"` write (line 607) and its later `progress`/`error` writes
observes a torn transition: status already `failed` while `progress` still
holds the pre-failure value 60 and `error`/`failed_at` are still absent. -/
theorem c8_counterexample :
    ((run false true (List.replicate 10 Move.bg) initCfg).w.job.map
        (fun r => (r.status, r.progress, r.error, r.failed_at))
      = some (JobStatus.failed, 60, false, false)) ∧
    ((get_job_status (run false true (List.replicate 10 Move.bg) initCfg).w).map
        (fun p => (p.status, p.progress, p.error, p.failed_at))
      = some (JobStatus.failed, 60, some false, some false)) := by
  decide

/-- C8 (amended): each individual background step is an atomic single-field
dictionary write — any one step changes at most one field of the job record —
but a multi-field state transition is spread over several such steps and is
therefore observably torn, as the counterexample shows. -/
theorem c8_steps_write_single_field (cf ch : Bool) (c : BgCfg) (r r' : JobRec)
    (hj : c.w.job = some r) (hj' : (bgStep cf ch c).w.job = some r') :
    fieldDiffCount r r' ≤ 1 := by
  obtain ⟨pc, w⟩ := c
  dsimp only at hj hj'
  cases pc <;>
    first
      | (simp only [bgStep, tryWrite, exceptWrite, hj, Option.some.injEq] at hj'
         subst hj'
         simp_all [fieldDiffCount]
         try (split <;> omega)
         done)
      | (simp_all [bgStep, tryWrite, exceptWrite, fieldDiffCount]
         done)
      | (cases cf <;> simp_all [bgStep, fieldDiffCount]
         done)
      | (cases ch <;> simp_all [bgStep, fieldDiffCount]
         done)
      | (by_cases hw : w.disk <;> simp_all [bgStep, fieldDiffCount]
         done)

theorem c8_witness :
    fieldDiffCount initRec { initRec with status := JobStatus.processing } ≤ 1 :=
  c8_steps_write_single_field false false initCfg initRec
    { initRec with status := JobStatus.processing } rfl rfl

/-! ## Chunk-record lemmas and claims C9, C10, C3 -/

theorem sortedIntSet_sorted (l : List Int) :
    List.Sorted (· ≤ ·) (sortedIntSet l) :=
  List.sorted_insertionSort (· ≤ ·) l.dedup

theorem chunk_page_fields_chunk_id (e : String) (s : List String) (i : Nat)
    (c : Chunk) (r : ChunkInfo) :
    (chunk_page_fields e s i c r).chunk_id = r.chunk_id := by
  unfold chunk_page_fields
  dsimp only
  repeat' split
  all_goals rfl

theorem chunk_page_fields_token_count (e : String) (s : List String) (i : Nat)
    (c : Chunk) (r : ChunkInfo) :
    (chunk_page_fields e s i c r).token_count = r.token_count := by
  unfold chunk_page_fields
  dsimp only
  repeat' split
  all_goals rfl

theorem chunk_page_fields_pages_sorted (e : String) (s : List String) (i : Nat)
    (c : Chunk) (r : ChunkInfo) :
    List.Sorted (· ≤ ·) (chunk_page_fields e s i c r).pages := by
  unfold chunk_page_fields
  dsimp only
  repeat' split
  all_goals first
    | exact List.sorted_nil
    | exact sortedIntSet_sorted _

theorem chunk_page_fields_pages_xlsx (s : List String) (i : Nat)
    (c : Chunk) (r : ChunkInfo) :
    (chunk_page_fields (".xlsx") s i c r).pages = [] := by
  unfold chunk_page_fields
  dsimp only
  repeat' split
  all_goals simp_all

theorem convert_file_chunked_base_chunk_id (t : TokObj) (cx : Chunk → String)
    (z : Bool) (i : Nat) (c : Chunk) :
    (convert_file_chunked_base t cx z i c).chunk_id = i + 1 := by
  unfold convert_file_chunked_base
  dsimp only
  repeat' split
  all_goals rfl

theorem process_chunking_job_base_chunk_id (t : TokObj) (cx : Chunk → String)
    (z : Bool) (i : Nat) (c : Chunk) :
    (process_chunking_job_base t cx z i c).chunk_id = i + 1 := by
  unfold process_chunking_job_base
  dsimp only
  repeat' split
  all_goals rfl

theorem convert_file_chunked_base_token_count (t : TokObj) (cx : Chunk → String)
    (z : Bool) (i : Nat) (c : Chunk) :
    (convert_file_chunked_base t cx z i c).token_count
      = t.count_tokens.map (fun f => f c.text) := by
  unfold convert_file_chunked_base
  dsimp only
  repeat' split
  all_goals rfl

theorem process_chunking_job_base_token_count (t : TokObj) (cx : Chunk → String)
    (z : Bool) (i : Nat) (c : Chunk) :
    (process_chunking_job_base t cx z i c).token_count
      = t.count_tokens.map (fun f => f c.text) := by
  unfold process_chunking_job_base
  dsimp only
  repeat' split
  all_goals rfl

theorem chunkRecords_getElem (build : Nat → Chunk → ChunkInfo) (i k : Nat)
    (l : List Chunk) :
    (chunkRecords build i l)[k]? = l[k]?.map (fun c => build (i + k) c) := by
  induction l generalizing i k with
  | nil => simp [chunkRecords]
  | cons c cs ih =>
      cases k with
      | zero => simp [chunkRecords]
      | succ k =>
          have harith : i + 1 + k = i + (k + 1) := by omega
          simp [chunkRecords, ih, harith]

/-- C9: in every chunked-conversion result — from the synchronous endpoint
or the background engine — the record at 0-based position `i` has
`chunk_id = i + 1` (1-based sequential), its `pages` list is sorted
ascending, and for an `.xlsx` upload `pages` is empty. -/
theorem c9_chunk_id_pages (mkTok : Nat → TokObj)
    (mkChunker : TokObj → ChunkerObj) (filename : String)
    (sheets : List String) (content_len : Nat) (mime : Option String)
    (total_pages_raw : Nat) (include_metadata contextualize : Bool)
    (max_tokens : Option Nat) (i : Nat) (r : ChunkInfo)
    (h : (convert_file_chunked_run mkTok mkChunker filename sheets content_len
            mime total_pages_raw include_metadata contextualize
            max_tokens).chunks[i]? = some r ∨
         (process_chunking_job_run mkTok mkChunker filename
            (file_extension_of filename) sheets include_metadata contextualize
            max_tokens).chunks[i]? = some r) :
    r.chunk_id = i + 1 ∧ List.Sorted (· ≤ ·) r.pages ∧
    (file_extension_of filename = ".xlsx" → r.pages = []) := by
  rcases h with h | h <;>
  · simp only [convert_file_chunked_run, process_chunking_job_run,
      chunkRecords_getElem, Option.map_eq_some'] at h
    obtain ⟨c, -, hb⟩ := h
    subst hb
    refine ⟨?_, ?_, ?_⟩
    · simp [convert_file_chunked_record, process_chunking_job_record,
        chunk_page_fields_chunk_id, convert_file_chunked_base_chunk_id,
        process_chunking_job_base_chunk_id]
    · exact chunk_page_fields_pages_sorted _ _ _ _ _
    · intro hx
      simp only [convert_file_chunked_record, process_chunking_job_record, hx]
      exact chunk_page_fields_pages_xlsx _ _ _ _

def c9exRec : ChunkInfo :=
  { chunk_id := 1, text := "hi", text_length := 2, token_count := some 2,
    contextualized_text := some ("hi"), contextualized_length := some 2,
    metadata := none, debug_chunk_attrs := some [], debug_meta_attrs := none,
    page_info := [], pages := [], sheet_names := none, sheet := none,
    sheet_index := none, section_index := some 1, bbox_info := [] }

theorem c9_witness :
    c9exRec.chunk_id = 1 ∧ List.Sorted (· ≤ ·) c9exRec.pages ∧
    (file_extension_of ("a.txt") = ".xlsx" → c9exRec.pages = []) :=
  c9_chunk_id_pages (fun _ => ⟨some (fun s => s.length)⟩)
    (fun _ => ⟨[⟨"hi", none, []⟩], fun c => c.text⟩)
    ("a.txt") [] 2 none 0 false true none 0 c9exRec (Or.inl (by decide))

def c10TokFam : Nat → TokObj := fun m => ⟨some (fun s => s.length + m)⟩

def c10ChunkerFam : TokObj → ChunkerObj :=
  fun _ => ⟨[⟨"hey", none, []⟩], fun c => c.text⟩

/-- C10: when a custom `max_tokens` `n` (truthy and different from 512) is
requested, both call sites chunk with the custom chunker built from
`mkTok n`, but every record's reported `token_count` is computed with the
module-global tokenizer `mkTok MAX_TOKENS` (line 280 resp. 488 read the
global `tokenizer`, not `custom_tokenizer`), so the reported count does not
reflect the requested configuration. -/
theorem c10_token_count_uses_global_tokenizer (mkTok : Nat → TokObj)
    (mkChunker : TokObj → ChunkerObj) (filename fe : String)
    (sheets : List String) (content_len : Nat) (mime : Option String)
    (total_pages_raw : Nat) (include_metadata contextualize : Bool) (n : Nat)
    (hn : (n != 0 && n != MAX_TOKENS) = true) (i : Nat) :
    ((process_chunking_job_run mkTok mkChunker filename fe sheets
        include_metadata contextualize (some n)).chunks[i]?).map
          ChunkInfo.token_count
      = ((mkChunker (mkTok n)).chunks[i]?).map
          (fun c => (mkTok MAX_TOKENS).count_tokens.map (fun f => f c.text)) ∧
    ((convert_file_chunked_run mkTok mkChunker filename sheets content_len
        mime total_pages_raw include_metadata contextualize
        (some n)).chunks[i]?).map ChunkInfo.token_count
      = ((mkChunker (mkTok n)).chunks[i]?).map
          (fun c => (mkTok MAX_TOKENS).count_tokens.map (fun f => f c.text)) := by
  constructor <;>
  · simp only [process_chunking_job_run, convert_file_chunked_run, hn, if_true,
      chunkRecords_getElem]
    cases hq : (mkChunker (mkTok n)).chunks[i]? <;>
      simp [hq, process_chunking_job_record, convert_file_chunked_record,
        chunk_page_fields_token_count, process_chunking_job_base_token_count,
        convert_file_chunked_base_token_count]

theorem c10_witness :
    ((process_chunking_job_run c10TokFam c10ChunkerFam ("a.txt") (".txt") []
        false true (some 256)).chunks[0]?).map ChunkInfo.token_count
      = ((c10ChunkerFam (c10TokFam 256)).chunks[0]?).map
          (fun c => (c10TokFam MAX_TOKENS).count_tokens.map (fun f => f c.text)) :=
  (c10_token_count_uses_global_tokenizer c10TokFam c10ChunkerFam ("a.txt")
    (".txt") [] 0 none 0 false true 256 (by decide) 0).1

theorem process_base_eq_erase_convert_base (t : TokObj) (cx : Chunk → String)
    (z : Bool) (i : Nat) (c : Chunk) :
    process_chunking_job_base t cx z i c
      = eraseDebug (convert_file_chunked_base t cx z i c) := by
  obtain ⟨tx, mta, da⟩ := c
  cases z <;> cases mta <;> rfl

theorem chunk_page_fields_eraseDebug (e : String) (s : List String) (i : Nat)
    (c : Chunk) (r : ChunkInfo) :
    chunk_page_fields e s i c (eraseDebug r)
      = eraseDebug (chunk_page_fields e s i c r) := by
  unfold chunk_page_fields eraseDebug
  dsimp only
  repeat' split
  all_goals rfl

theorem process_record_eq_erase_convert_record (t : TokObj)
    (cx : Chunk → String) (z : Bool) (e : String) (s : List String) (i : Nat)
    (c : Chunk) :
    process_chunking_job_record t cx z e s i c
      = eraseDebug (convert_file_chunked_record t cx z e s i c) := by
  unfold process_chunking_job_record convert_file_chunked_record
  rw [process_base_eq_erase_convert_base, chunk_page_fields_eraseDebug]

theorem chunkRecords_map_erase (b : Nat → Chunk → ChunkInfo) (i : Nat)
    (l : List Chunk) :
    (chunkRecords b i l).map eraseDebug
      = chunkRecords (fun j c => eraseDebug (b j c)) i l := by
  induction l generalizing i with
  | nil => rfl
  | cons c cs ih => simp [chunkRecords, ih]

theorem chunkRecords_congr (b1 b2 : Nat → Chunk → ChunkInfo)
    (h : ∀ j c, b1 j c = b2 j c) (i : Nat) (l : List Chunk) :
    chunkRecords b1 i l = chunkRecords b2 i l := by
  induction l generalizing i with
  | nil => rfl
  | cons c cs ih => simp [chunkRecords, h, ih]

/-- C3 (counterexample): for the same upload (`a.txt`, same chunker output)
and the same parameters, the synchronous `/convert-chunked` chunk records
differ from the background engine's: the synchronous ones carry the
`debug_chunk_attrs`/`debug_meta_attrs` keys (lines 295-297) which the
background path never writes. -/
theorem c3_counterexample :
    (convert_file_chunked_run (fun _ => ⟨some (fun s => s.length)⟩)
        (fun _ => ⟨[⟨"hello", none, ["text"]⟩], fun c => c.text⟩)
        ("a.txt") [] 5 none 0 false true none).chunks
      ≠ (process_chunking_job_run (fun _ => ⟨some (fun s => s.length)⟩)
          (fun _ => ⟨[⟨"hello", none, ["text"]⟩], fun c => c.text⟩)
          ("a.txt") (file_extension_of ("a.txt")) [] false true none).chunks := by
  decide

/-- C3 (amended): for the same upload and parameters the two call sites
agree except for the documented per-site extras: every background chunk
record equals the corresponding synchronous record with the two sync-only
debug fields removed; all shared payload fields coincide; and the payloads
differ only in `file_metadata` (synchronous-only, when requested) and
`excel_sheets`/`total_sheets` (background-only, xlsx uploads). -/
theorem c3_async_refines_sync (mkTok : Nat → TokObj)
    (mkChunker : TokObj → ChunkerObj) (filename : String)
    (sheets : List String) (content_len : Nat) (mime : Option String)
    (total_pages_raw : Nat) (include_metadata contextualize : Bool)
    (max_tokens : Option Nat) :
    let ps := convert_file_chunked_run mkTok mkChunker filename sheets
      content_len mime total_pages_raw include_metadata contextualize
      max_tokens
    let pa := process_chunking_job_run mkTok mkChunker filename
      (file_extension_of filename) sheets include_metadata contextualize
      max_tokens
    pa.chunks = ps.chunks.map eraseDebug ∧
    pa.success = ps.success ∧
    pa.filename = ps.filename ∧
    pa.file_type = ps.file_type ∧
    pa.total_chunks = ps.total_chunks ∧
    pa.config_tokenizer = ps.config_tokenizer ∧
    pa.config_max_tokens = ps.config_max_tokens ∧
    pa.config_merge_peers = ps.config_merge_peers ∧
    pa.config_contextualize = ps.config_contextualize ∧
    ps.excel_sheets = none ∧ ps.total_sheets = none ∧
    pa.file_metadata = none ∧
    pa.excel_sheets = (if file_extension_of filename == ".xlsx"
        && !sheets.isEmpty then some sheets else none) ∧
    pa.total_sheets = (if file_extension_of filename == ".xlsx"
        && !sheets.isEmpty then some sheets.length else none) := by
  refine ⟨?_, rfl, rfl, rfl, rfl, rfl, rfl, rfl, rfl, rfl, rfl, rfl, ?_, ?_⟩
  · show (process_chunking_job_run mkTok mkChunker filename
        (file_extension_of filename) sheets include_metadata contextualize
        max_tokens).chunks = _
    simp only [process_chunking_job_run, convert_file_chunked_run,
      chunkRecords_map_erase]
    exact chunkRecords_congr _ _
      (fun j c => process_record_eq_erase_convert_record _ _ _ _ _ _ _) 0 _
  · show (process_chunking_job_run mkTok mkChunker filename
        (file_extension_of filename) sheets include_metadata contextualize
        max_tokens).excel_sheets = _
    simp only [process_chunking_job_run]
    by_cases hx : file_extension_of filename == ".xlsx" <;> simp [hx]
  · show (process_chunking_job_run mkTok mkChunker filename
        (file_extension_of filename) sheets include_metadata contextualize
        max_tokens).total_sheets = _
    simp only [process_chunking_job_run]
    by_cases hx : file_extension_of filename == ".xlsx" <;> simp [hx]

/-! ## Endpoint admission claims C2, C6 -/

theorem convert_multiple_step_not_mem (use_chunking : Bool)
    (conv_ok : String → Bool) (conv_content : String → String)
    (chunks_count : String → Nat) (conv_err : String → String)
    (filename : String)
    (hf : isSupported (file_extension_of filename) = false)
    (acc : List Ev × List FileResult × List (String × String)) (f : String)
    (h1 : Ev.adapterConvert filename ∉ acc.1)
    (h2 : Ev.createJobRecord ∉ acc.1) :
    Ev.adapterConvert filename ∉
      (convert_multiple_step use_chunking conv_ok conv_content chunks_count
        conv_err acc f).1 ∧
    Ev.createJobRecord ∉
      (convert_multiple_step use_chunking conv_ok conv_content chunks_count
        conv_err acc f).1 := by
  by_cases hs : isSupported (file_extension_of f) <;>
    by_cases hc : conv_ok f <;>
      simp_all [convert_multiple_step] <;>
      (intro h
       subst h
       simp_all)

theorem convert_multiple_fold_not_mem (use_chunking : Bool)
    (conv_ok : String → Bool) (conv_content : String → String)
    (chunks_count : String → Nat) (conv_err : String → String)
    (filename : String)
    (hf : isSupported (file_extension_of filename) = false) :
    ∀ (fs : List String)
      (acc : List Ev × List FileResult × List (String × String)),
      Ev.adapterConvert filename ∉ acc.1 → Ev.createJobRecord ∉ acc.1 →
      Ev.adapterConvert filename ∉
        (fs.foldl (convert_multiple_step use_chunking conv_ok conv_content
          chunks_count conv_err) acc).1 ∧
      Ev.createJobRecord ∉
        (fs.foldl (convert_multiple_step use_chunking conv_ok conv_content
          chunks_count conv_err) acc).1 := by
  intro fs
  induction fs with
  | nil => intro acc h1 h2; exact ⟨h1, h2⟩
  | cons f fs ih =>
      intro acc h1 h2
      have hstep := convert_multiple_step_not_mem use_chunking conv_ok
        conv_content chunks_count conv_err filename hf acc f h1 h2
      exact ih _ hstep.1 hstep.2

theorem convert_multiple_fold_conv_empty (use_chunking : Bool)
    (conv_ok : String → Bool) (conv_content : String → String)
    (chunks_count : String → Nat) (conv_err : String → String) :
    ∀ (fs : List String)
      (acc : List Ev × List FileResult × List (String × String)),
      acc.2.2 = [] →
      (∀ f ∈ fs, isSupported (file_extension_of f) = false ∨ conv_ok f = false) →
      (fs.foldl (convert_multiple_step use_chunking conv_ok conv_content
        chunks_count conv_err) acc).2.2 = [] := by
  intro fs
  induction fs with
  | nil => intro acc h _; exact h
  | cons f fs ih =>
      intro acc hacc hall
      apply ih
      · rcases hall f (by simp) with h | h <;>
          by_cases hs : isSupported (file_extension_of f) <;>
            simp_all [convert_multiple_step]
      · intro g hg
        exact hall g (by simp [hg])

/-- C2 (counterexample): `/convert-multiple` with a single unsupported file
allocates its shared workspace (the `TemporaryDirectory` of line 812) before
any extension check and answers 200 — no 400-class rejection happens. -/
theorem c2_counterexample :
    (convert_multiple_files_run [("b.zip")] OutFmt.json false (fun _ => true)
        (fun _ => "x") (fun _ => 1) (fun _ => "e")).events
      = [Ev.allocWorkspace, Ev.respondOk] ∧
    Ev.http400 ∉ (convert_multiple_files_run [("b.zip")] OutFmt.json false
        (fun _ => true) (fun _ => "x") (fun _ => 1) (fun _ => "e")).events := by
  decide

/-- C2 (amended): `/convert`, `/convert-chunked` and `/convert-chunked-async`
reject an unsupported extension with the 400 error before any workspace
allocation, job-record creation or adapter call; `/convert-multiple` instead
allocates one shared workspace before the per-file checks and never rejects
the request for an unsupported file — it only skips that file with a
per-file failure entry, never passing it to the adapter and never creating a
job record. -/
theorem c2_unsupported_rejected_before_allocation (filename : String)
    (hf : isSupported (file_extension_of filename) = false) :
    (∀ conv_ok, convert_file_events filename conv_ok = [Ev.http400]) ∧
    convert_file_chunked_events filename = [Ev.http400] ∧
    (∀ store_ok, convert_file_chunked_async_events filename store_ok
      = [Ev.http400]) ∧
    (∀ (files : List String) (output_format : OutFmt) (use_chunking : Bool)
      (conv_ok : String → Bool) (conv_content : String → String)
      (chunks_count : String → Nat) (conv_err : String → String),
      Ev.adapterConvert filename ∉
        (convert_multiple_files_run files output_format use_chunking conv_ok
          conv_content chunks_count conv_err).events ∧
      Ev.createJobRecord ∉
        (convert_multiple_files_run files output_format use_chunking conv_ok
          conv_content chunks_count conv_err).events) := by
  refine ⟨?_, ?_, ?_, ?_⟩
  · intro conv_ok; simp [convert_file_events, hf]
  · simp [convert_file_chunked_events, hf]
  · intro store_ok; simp [convert_file_chunked_async_events, hf]
  · intro files output_format use_chunking conv_ok conv_content chunks_count
      conv_err
    have hfold := convert_multiple_fold_not_mem use_chunking conv_ok
      conv_content chunks_count conv_err filename hf files
      ([Ev.allocWorkspace], [], []) (by simp) (by simp)
    unfold convert_multiple_files_run
    by_cases hlen : 10 < files.length
    · simp [hlen]
    · rw [if_neg hlen]
      cases output_format with
      | json =>
          constructor <;> simp [List.mem_append, hfold.1, hfold.2]
      | zip =>
          by_cases hconv : (files.foldl (convert_multiple_step use_chunking
              conv_ok conv_content chunks_count conv_err)
              ([Ev.allocWorkspace], [], [])).2.2.isEmpty
          · constructor <;> simp [hconv, List.mem_append, hfold.1, hfold.2]
          · constructor <;> simp [hconv, List.mem_append, hfold.1, hfold.2]

theorem c2_witness :
    convert_file_events ("a.exe") true = [Ev.http400] ∧
    convert_file_chunked_events ("a.exe") = [Ev.http400] ∧
    convert_file_chunked_async_events ("a.exe") true = [Ev.http400] ∧
    Ev.adapterConvert ("a.exe") ∉
      (convert_multiple_files_run [("a.exe"), ("b.pdf")] OutFmt.zip false
        (fun _ => true) (fun _ => "x") (fun _ => 1) (fun _ => "e")).events := by
  have h := c2_unsupported_rejected_before_allocation ("a.exe") (by decide)
  exact ⟨h.1 true, h.2.1, h.2.2.1 true,
    (h.2.2.2 [("a.exe"), ("b.pdf")] OutFmt.zip false (fun _ => true)
      (fun _ => "x") (fun _ => 1) (fun _ => "e")).1⟩

/-- C6 (counterexample): with `output_format=json` and no convertible file,
`/convert-multiple` answers with the JSON payload
(`successful_conversions = 0`), not with a 400-class error. -/
theorem c6_counterexample :
    isHttpError (convert_multiple_files_run [("a.exe")] OutFmt.json false
        (fun _ => true) (fun _ => "x") (fun _ => 1) (fun _ => "e")).resp
      = false ∧
    (convert_multiple_files_run [("a.exe")] OutFmt.json false (fun _ => true)
        (fun _ => "x") (fun _ => 1) (fun _ => "e")).resp
      = MultiResp.jsonResp 1 0
          [{ filename := "a.exe", success := false,
             error := some ("지원되지 않는 파일 형식"), output_filename := none,
             content_length := none, chunks_count := none }] := by
  decide

/-- C6 (amended): more than 10 files are rejected with the 400 error before
any file is processed; when no submitted file is convertible the endpoint
fails with a 400-class error only for `output_format=zip` — for
`output_format=json` it answers 200 with `successful_conversions = 0`. -/
theorem c6_over_limit_and_none_convertible (files : List String)
    (output_format : OutFmt) (use_chunking : Bool) (conv_ok : String → Bool)
    (conv_content : String → String) (chunks_count : String → Nat)
    (conv_err : String → String) :
    (10 < files.length →
      convert_multiple_files_run files output_format use_chunking conv_ok
          conv_content chunks_count conv_err
        = { events := [Ev.http400], results := [],
            resp := MultiResp.httpError 400
              ("한 번에 최대 10개 파일까지 처리 가능합니다.") }) ∧
    (files.length ≤ 10 →
      (∀ f ∈ files,
        isSupported (file_extension_of f) = false ∨ conv_ok f = false) →
      ((output_format = OutFmt.zip →
          (convert_multiple_files_run files output_format use_chunking
            conv_ok conv_content chunks_count conv_err).resp
            = MultiResp.httpError 400 ("변환 가능한 파일이 없습니다.")) ∧
       (output_format = OutFmt.json →
          ∃ rs, (convert_multiple_files_run files output_format use_chunking
            conv_ok conv_content chunks_count conv_err).resp
            = MultiResp.jsonResp files.length 0 rs))) := by
  constructor
  · intro hlen
    simp [convert_multiple_files_run, hlen]
  · intro hlen hall
    have hconv := convert_multiple_fold_conv_empty use_chunking conv_ok
      conv_content chunks_count conv_err files
      ([Ev.allocWorkspace], [], []) rfl hall
    have hlen2 : ¬(10 < files.length) := by omega
    constructor
    · intro hz
      subst hz
      simp [convert_multiple_files_run, hlen2, hconv]
    · intro hj
      subst hj
      refine ⟨(files.foldl (convert_multiple_step use_chunking conv_ok
        conv_content chunks_count conv_err)
        ([Ev.allocWorkspace], [], [])).2.1, ?_⟩
      simp [convert_multiple_files_run, hlen2, hconv]

theorem c6_witness :
    convert_multiple_files_run (List.replicate 11 ("a.pdf")) OutFmt.zip false
        (fun _ => true) (fun _ => "x") (fun _ => 1) (fun _ => "e")
      = { events := [Ev.http400], results := [],
          resp := MultiResp.httpError 400
            ("한 번에 최대 10개 파일까지 처리 가능합니다.") } ∧
    (convert_multiple_files_run [("a.exe")] OutFmt.zip false (fun _ => true)
        (fun _ => "x") (fun _ => 1) (fun _ => "e")).resp
      = MultiResp.httpError 400 ("변환 가능한 파일이 없습니다.") := by
  constructor
  · exact (c6_over_limit_and_none_convertible (List.replicate 11 ("a.pdf"))
      OutFmt.zip false (fun _ => true) (fun _ => "x") (fun _ => 1)
      (fun _ => "e")).1 (by decide)
  · exact ((c6_over_limit_and_none_convertible [("a.exe")] OutFmt.zip false
      (fun _ => true) (fun _ => "x") (fun _ => 1) (fun _ => "e")).2
      (by decide) (by decide)).1 rfl

end Docling
